import Mathlib

/-!
Verification development for the tailored-api-response backend.

The repository contains two parallel implementations of the same core:
the Api variant (src/api/storage.py, src/api/auth.py, src/api/dependencies.py,
src/api/routers/*) and the App variant (app/storage.py, app/security.py,
app/main.py).  Both are embedded below, each in its own namespace, translated
function by function from the Python source.

Modelling conventions:
- Python dicts become association lists with first-match lookup and
  insert-at-front-after-delete update, matching dict get/setitem semantics.
- Cryptographic primitives (hashlib.sha256, hashlib.pbkdf2_hmac) are modelled
  symbolically by the free datatype HashVal: two hash values are equal exactly
  when they were produced by the same construction on the same inputs.  This is
  the ideal (collision-free) model of the hash functions.
- Randomness (uuid4, os.urandom) is made explicit: the generated id and salt
  are passed as arguments to the operations that consume them.
- JWTs are modelled symbolically: encoding attaches the secret and algorithm
  as the signature, and decoding checks them, rejects structurally malformed
  tokens, and rejects tokens whose exp is at or before the current time with
  zero leeway (the documented PyJWT behaviour used by the Api variant:
  ExpiredSignatureError when exp is less than or equal to now).
- Environment variables are a record of optional values; reading with a
  default becomes Option.getD.
-/

/-- Python str.lower modelled character-wise (executable, kernel-reducible);
the source strings here are ASCII. -/
def pyLower (s : String) : String :=
  String.mk (s.data.map Char.toLower)

/-- Character class of Python str.strip default whitespace. -/
def isPySpace (c : Char) : Bool :=
  c = ' ' || c = '\t' || c = '\n' || c = '\r' || c = '\x0b' || c = '\x0c'

/-- Python str.strip modelled on the character list (executable,
kernel-reducible). -/
def pyStrip (s : String) : String :=
  String.mk (((s.data.dropWhile isPySpace).reverse.dropWhile isPySpace).reverse)

/-- Association-list lookup, modelling Python dict.get: first matching key. -/
def alookup {α : Type} (l : List (String × α)) (k : String) : Option α :=
  (l.find? (fun p => p.1 == k)).map (fun p => p.2)

/-- Association-list update, modelling Python dict item assignment:
the new binding shadows and removes any previous binding of the key. -/
def ainsert {α : Type} (l : List (String × α)) (k : String) (v : α) : List (String × α) :=
  (k, v) :: l.filter (fun p => p.1 != k)

/-- Symbolic model of the hash computations performed by the code.  A stored
hash value records which construction produced it and on which inputs; equality
of hash values is constructor equality, the ideal collision-free model. -/
inductive HashVal where
  | sha256 (input : String)
  | pbkdf2HmacSha256 (password : String) (salt : List Nat) (iterations : Nat) (dklen : Nat)
  deriving DecidableEq, Repr

/-- The criterion of the spec for an acceptable password hash: a PBKDF2-class
construction with a salt of at least 16 bytes, at least 100000 iterations and
at least 256 bits (32 bytes) of output; a single fast hash never qualifies. -/
def isSlowSaltedHash : HashVal → Prop
  | HashVal.sha256 _ => False
  | HashVal.pbkdf2HmacSha256 _ salt iterations dklen =>
      16 ≤ salt.length ∧ 100000 ≤ iterations ∧ 256 ≤ dklen * 8

instance (h : HashVal) : Decidable (isSlowSaltedHash h) := by
  cases h with
  | sha256 _ => exact isFalse (fun hf => hf)
  | pbkdf2HmacSha256 _ _ _ _ => exact instDecidableAnd

/-- PackageTier enumeration from src/api/models.py. -/
inductive PackageTier where
  | free
  | pro
  | enterprise
  deriving DecidableEq, Repr

/-- The value of a PackageTier member, as stored in records. -/
def PackageTier.value : PackageTier → String
  | PackageTier.free => "free"
  | PackageTier.pro => "pro"
  | PackageTier.enterprise => "enterprise"

/-- Conversion of a stored string back to a PackageTier; none models the
ValueError raised by the enum constructor on an unknown string. -/
def PackageTier.ofString (s : String) : Option PackageTier :=
  if s = "free" then some PackageTier.free
  else if s = "pro" then some PackageTier.pro
  else if s = "enterprise" then some PackageTier.enterprise
  else none

namespace Api

/-- User record dictionary built by InMemoryDB.create_user in
src/api/storage.py (fields id, email, salt_hex, password_hash, package_tier).
The salt is kept as the byte list whose hex encoding the code stores. -/
structure UserRecord where
  id : String
  email : String
  salt : List Nat
  password_hash : HashVal
  package_tier : String
  deriving DecidableEq, Repr

/-- Translation of the module-level function hash_password (source name with a
leading underscore) in src/api/storage.py: PBKDF2-HMAC-SHA256 with 100000
iterations and dklen 32 over the password and salt. -/
def hash_password (password : String) (salt : List Nat) : HashVal :=
  HashVal.pbkdf2HmacSha256 password salt 100000 32

/-- InMemoryDB from src/api/storage.py: users maps user_id to record,
email_index maps lowercased email to user_id. -/
structure InMemoryDB where
  users : List (String × UserRecord)
  email_index : List (String × String)
  deriving DecidableEq, Repr

/-- The freshly constructed store. -/
def InMemoryDB.empty : InMemoryDB :=
  { users := [], email_index := [] }

/-- InMemoryDB.create_user.  The uuid4 id and the 16-byte os.urandom salt are
passed explicitly.  Note that the source performs no duplicate-email check
here: it unconditionally writes the record and repoints the email index. -/
def InMemoryDB.create_user (db : InMemoryDB) (user_id : String) (salt : List Nat)
    (email password : String) (package_tier : PackageTier) : InMemoryDB × UserRecord :=
  let record : UserRecord :=
    { id := user_id
      email := pyLower email
      salt := salt
      password_hash := hash_password password salt
      package_tier := package_tier.value }
  ({ users := ainsert db.users user_id record
     email_index := ainsert db.email_index (pyLower email) user_id }, record)

/-- InMemoryDB.get_user_by_email: index lookup on the lowercased email; the
source treats a falsy (empty) user_id the same as a missing one. -/
def InMemoryDB.get_user_by_email (db : InMemoryDB) (email : String) : Option UserRecord :=
  match alookup db.email_index (pyLower email) with
  | none => none
  | some user_id => if user_id = "" then none else alookup db.users user_id

/-- InMemoryDB.get_user_by_id. -/
def InMemoryDB.get_user_by_id (db : InMemoryDB) (user_id : String) : Option UserRecord :=
  alookup db.users user_id

/-- InMemoryDB.verify_password: recomputes the hash with the stored salt and
compares with hmac.compare_digest (modelled as equality of hash values). -/
def InMemoryDB.verify_password (db : InMemoryDB) (email password : String) : Option UserRecord :=
  match db.get_user_by_email email with
  | none => none
  | some u =>
      if u.password_hash = hash_password password u.salt then some u else none

/-- InMemoryDB.set_package: in-place mutation of the package_tier field of the
record stored under user_id; returns the updated record. -/
def InMemoryDB.set_package (db : InMemoryDB) (user_id : String) (package_tier : PackageTier) :
    InMemoryDB × Option UserRecord :=
  match alookup db.users user_id with
  | none => (db, none)
  | some u =>
      let u2 : UserRecord := { u with package_tier := package_tier.value }
      ({ db with users := ainsert db.users user_id u2 }, some u2)

end Api

namespace App

/-- UserRecord from app/storage.py.  The constructor lowercases and strips the
email and stores a single unsalted SHA-256 of the plaintext password. -/
structure UserRecord where
  id : String
  email : String
  hashed_password : HashVal
  package_tier : String
  deriving DecidableEq, Repr

/-- Translation of the static method hash_password of UserRecord in
app/storage.py (source name with a leading underscore): a single SHA-256 of
the UTF-8 encoded plaintext. -/
def UserRecord.hash_password (password_plain : String) : HashVal :=
  HashVal.sha256 password_plain

/-- The UserRecord constructor: the uuid4 id is passed explicitly. -/
def UserRecord.make (id email password_plain package_tier : String) : UserRecord :=
  { id := id
    email := pyStrip (pyLower email)
    hashed_password := UserRecord.hash_password password_plain
    package_tier := package_tier }

/-- UserRecord.verify_password: recompute and compare. -/
def UserRecord.verify_password (u : UserRecord) (password_plain : String) : Bool :=
  u.hashed_password == UserRecord.hash_password password_plain

/-- MemoryUserStore from app/storage.py, with its two indexes (the source
field names carry a leading underscore). -/
structure MemoryUserStore where
  by_email : List (String × UserRecord)
  by_id : List (String × UserRecord)
  deriving DecidableEq, Repr

/-- The freshly constructed store. -/
def MemoryUserStore.empty : MemoryUserStore :=
  { by_email := [], by_id := [] }

/-- MemoryUserStore.create_user: raises ValueError (modelled as Except.error)
when the lowercased, stripped email is already registered, else inserts the
new record into both indexes.  The Python expression package_tier or "free"
replaces a falsy (empty) tier by "free". -/
def MemoryUserStore.create_user (s : MemoryUserStore) (id email password_plain : String)
    (package_tier : String) : Except String (MemoryUserStore × UserRecord) :=
  let email_key := pyStrip (pyLower email)
  if (alookup s.by_email email_key).isSome then
    Except.error "Email already registered"
  else
    let user := UserRecord.make id email_key password_plain
      (if package_tier = "" then "free" else package_tier)
    Except.ok
      ({ by_email := ainsert s.by_email email_key user
         by_id := ainsert s.by_id user.id user }, user)

/-- MemoryUserStore.get_by_email: normalized lookup. -/
def MemoryUserStore.get_by_email (s : MemoryUserStore) (email : String) : Option UserRecord :=
  alookup s.by_email (pyStrip (pyLower email))

/-- MemoryUserStore.get_by_id. -/
def MemoryUserStore.get_by_id (s : MemoryUserStore) (user_id : String) : Option UserRecord :=
  alookup s.by_id user_id

/-- MemoryUserStore.authenticate: none on unknown email and none on a wrong
password, the two cases returning the same value. -/
def MemoryUserStore.authenticate (s : MemoryUserStore) (email password_plain : String) :
    Option UserRecord :=
  match s.get_by_email email with
  | none => none
  | some user => if user.verify_password password_plain then some user else none

/-- MemoryUserStore.update_plan: mutates the package_tier of the record in
place; since the same object is referenced from both indexes, both are
updated. -/
def MemoryUserStore.update_plan (s : MemoryUserStore) (user_id package_tier : String) :
    MemoryUserStore × Option UserRecord :=
  match alookup s.by_id user_id with
  | none => (s, none)
  | some user =>
      let user2 : UserRecord := { user with package_tier := package_tier }
      ({ by_email := ainsert s.by_email user2.email user2
         by_id := ainsert s.by_id user_id user2 }, some user2)

end App

/-- JWT payload as built by the two token creators.  Each optional field is a
claim that may or may not be present in the payload dictionary: the App
variant sets sub, email and package_tier, the Api variant sets sub and the
additional claim pkg; iat and exp are always set (integer Unix seconds). -/
structure JwtPayload where
  sub : Option String
  email : Option String
  package_tier : Option String
  pkg : Option String
  iat : Int
  exp : Int
  deriving DecidableEq, Repr

/-- Symbolic model of an encoded token string: a signed token records the
payload together with the secret and algorithm that produced the signature;
any other string is structurally malformed. -/
inductive TokenString where
  | signed (payload : JwtPayload) (secret : String) (algorithm : String)
  | malformed (raw : String)
  deriving DecidableEq, Repr

/-- Symbolic jwt.encode: signing attaches the secret and algorithm. -/
def jwt_encode (payload : JwtPayload) (secret : String) (algorithm : String) : TokenString :=
  TokenString.signed payload secret algorithm

/-- Symbolic jwt.decode with the documented PyJWT contract used by the Api
variant: a malformed token fails, a signature made with a different secret or
with an algorithm outside the accepted list fails, and an expired token fails,
where expiry means exp at or before the current time with zero leeway
(ExpiredSignatureError is raised when exp is less than or equal to now).
Every failure is the single opaque outcome none, matching the single
exception family the callers catch. -/
def jwt_decode (token : TokenString) (secret : String) (algorithms : List String)
    (now : Int) : Option JwtPayload :=
  match token with
  | TokenString.malformed _ => none
  | TokenString.signed payload s a =>
      if s = secret ∧ a ∈ algorithms then
        if payload.exp ≤ now then none else some payload
      else none

/-- Process environment as consumed by the two auth modules.  A field is none
when the variable is unset; access_token_expire_minutes is none also when the
value does not parse as an integer (the App variant falls back to the default
in that case). -/
structure Env where
  jwt_secret_key : Option String
  jwt_secret : Option String
  jwt_algorithm : Option String
  access_token_expire_minutes : Option Int
  deriving Repr

namespace App

/-- Configuration record returned by get_jwt_config in app/security.py. -/
structure JwtConfig where
  secret : String
  algorithm : String
  ttl_minutes : Int
  deriving DecidableEq, Repr

/-- get_jwt_config from app/security.py: requires JWT_SECRET_KEY (a missing or
empty value raises RuntimeError, the ConfigurationError of the spec), defaults
the algorithm to HS256 and the time-to-live to 1440 minutes. -/
def get_jwt_config (env : Env) : Except String JwtConfig :=
  match env.jwt_secret_key with
  | none => Except.error "JWT_SECRET_KEY environment variable is required but not set."
  | some secret =>
      if secret = "" then
        Except.error "JWT_SECRET_KEY environment variable is required but not set."
      else
        Except.ok
          { secret := secret
            algorithm := env.jwt_algorithm.getD "HS256"
            ttl_minutes := env.access_token_expire_minutes.getD 1440 }

/-- create_access_token from app/security.py: resolves the configuration
(propagating the RuntimeError when the secret is missing) and signs a payload
with sub, email, package_tier, iat = now and exp = now plus ttl minutes. -/
def create_access_token (env : Env) (user : UserRecord) (now : Int) :
    Except String TokenString :=
  match get_jwt_config env with
  | Except.error e => Except.error e
  | Except.ok cfg =>
      Except.ok (jwt_encode
        { sub := some user.id
          email := some user.email
          package_tier := some user.package_tier
          pkg := none
          iat := now
          exp := now + cfg.ttl_minutes * 60 }
        cfg.secret cfg.algorithm)

/-- decode_token from app/security.py: resolves the configuration and decodes;
a configuration failure propagates as its own error, a decode failure is the
uniform JWTError. -/
def decode_token (env : Env) (token : TokenString) (now : Int) : Except String JwtPayload :=
  match get_jwt_config env with
  | Except.error e => Except.error e
  | Except.ok cfg =>
      match jwt_decode token cfg.secret [cfg.algorithm] now with
      | some payload => Except.ok payload
      | none => Except.error "JWTError"

/-- get_current_user from app/security.py: any decode or configuration error,
a missing sub claim, and an unknown user id all collapse to the same
credentials_exception, modelled as the single value none. -/
def get_current_user (env : Env) (token : TokenString) (store : MemoryUserStore)
    (now : Int) : Option UserRecord :=
  match decode_token env token now with
  | Except.error _ => none
  | Except.ok payload =>
      match payload.sub with
      | none => none
      | some user_id => store.get_by_id user_id

end App

namespace Api

/-- JWT_SECRET from src/api/auth.py: os.getenv with a built-in development
fallback value used whenever the variable is unset. -/
def JWT_SECRET (env : Env) : String :=
  env.jwt_secret.getD "change_me_local_dev_secret"

/-- JWT_ALGORITHM from src/api/auth.py. -/
def JWT_ALGORITHM (env : Env) : String :=
  env.jwt_algorithm.getD "HS256"

/-- ACCESS_TOKEN_EXPIRE_MINUTES from src/api/auth.py: default 60. -/
def ACCESS_TOKEN_EXPIRE_MINUTES (env : Env) : Int :=
  env.access_token_expire_minutes.getD 60

/-- create_access_token from src/api/auth.py: signs a payload with sub, iat
and exp = now plus the configured minutes, merged with the additional claims;
the only additional claim the routers pass is pkg (the package tier). -/
def create_access_token (env : Env) (subject : String) (pkg : Option String)
    (now : Int) : TokenString :=
  jwt_encode
    { sub := some subject
      email := none
      package_tier := none
      pkg := pkg
      iat := now
      exp := now + ACCESS_TOKEN_EXPIRE_MINUTES env * 60 }
    (JWT_SECRET env) (JWT_ALGORITHM env)

/-- decode_token from src/api/auth.py. -/
def decode_token (env : Env) (token : TokenString) (now : Int) : Option JwtPayload :=
  jwt_decode token (JWT_SECRET env) [JWT_ALGORITHM env] now

/-- UserPublic from src/api/models.py. -/
structure UserPublic where
  id : String
  email : String
  package_tier : PackageTier
  deriving DecidableEq, Repr

/-- get_current_user from src/api/dependencies.py: decodes the token, rejects
a missing or falsy (empty) sub claim, looks the user up by id in the store and
converts the stored tier string back to the enumeration; every failure on this
path, the enum conversion included, is caught by the blanket except clause and
collapses to the same 401 outcome, modelled as the single value none. -/
def get_current_user (env : Env) (token : TokenString) (db : InMemoryDB) (now : Int) :
    Option UserPublic :=
  match decode_token env token now with
  | none => none
  | some claims =>
      match claims.sub with
      | none => none
      | some user_id =>
          if user_id = "" then none
          else
            match db.get_user_by_id user_id with
            | none => none
            | some record =>
                match PackageTier.ofString record.package_tier with
                | none => none
                | some tier =>
                    some { id := record.id, email := record.email, package_tier := tier }

end Api

/-- DashboardFeature from the response models: key, label, enabled flag and
optional numeric limit. -/
structure DashboardFeature where
  key : String
  label : String
  enabled : Bool
  limit : Option Int
  deriving DecidableEq, Repr

/-- Translation of the feature-policy function of app/main.py (source name
with a leading underscore, features_for_tier): the tier string is lowercased
and stripped, four fixed features are built in order, and a synthetic marker
feature is appended whose name falls back to free only when the normalized
tier is falsy (empty). -/
def features_for_tier (tier : String) : List DashboardFeature :=
  let t := pyStrip (pyLower tier)
  let base : List DashboardFeature :=
    [ { key := "basic-search", label := "Basic Search", enabled := true, limit := some 100 }
    , { key := "reports", label := "Reports"
        enabled := t == "pro" || t == "enterprise"
        limit := if t = "pro" then some 10 else if t = "enterprise" then some 50 else none }
    , { key := "export", label := "Data Export"
        enabled := t == "pro" || t == "enterprise", limit := none }
    , { key := "analytics", label := "Advanced Analytics"
        enabled := t == "enterprise", limit := none } ]
  base ++
    [ { key := "tier-" ++ (if t = "" then "free" else t)
        label := "Tier: " ++ (if t = "" then "free" else t)
        enabled := true, limit := none } ]

/-- Enterprise analytics dictionary of the tailored-content endpoint of
app/main.py. -/
structure AnalyticsInfo where
  dashboards : Int
  pipeline : String
  sla : String
  deriving DecidableEq, Repr

/-- TailoredContentResponse shape: data_basic always present, the other three
fields optional. -/
structure TailoredContent where
  summary : String
  data_basic : List String
  data_pro : Option (List String)
  data_enterprise : Option (List String)
  analytics : Option AnalyticsInfo
  deriving DecidableEq, Repr

/-- get_content from app/main.py as a function of the package tier of the
resolved user: a falsy (empty) tier falls back to free, the result is then
lowercased; data_pro is filled for pro and enterprise, data_enterprise and
analytics only for enterprise. -/
def get_content (package_tier : String) : TailoredContent :=
  let tier := pyLower (if package_tier = "" then "free" else package_tier)
  let base : TailoredContent :=
    { summary := "Content for " ++ tier ++ " user"
      data_basic := ["overview", "getting-started", "samples"]
      data_pro := none
      data_enterprise := none
      analytics := none }
  let base :=
    if tier = "pro" ∨ tier = "enterprise" then
      { base with data_pro := some ["pro-tips", "enhanced-datasets"] }
    else base
  if tier = "enterprise" then
    { base with
        data_enterprise := some ["enterprise-insights", "priority-roadmap"]
        analytics := some { dashboards := 5, pipeline := "real-time", sla := "99.9%" } }
  else base

/-! Helper lemmas about the dictionary model. -/

theorem alookup_ainsert_self {α : Type} (l : List (String × α)) (k : String) (v : α) :
    alookup (ainsert l k v) k = some v := by
  simp [alookup, ainsert, List.find?]

/-! Claim theorems. -/

/-- C1: counterexample.  The claim states that createUser always derives the
stored credential hash from the password and a fresh random salt of at least
16 bytes via a PBKDF2-class construction with at least 100000 iterations and
256-bit output, never a single fast hash.  The App variant store
(MemoryUserStore together with UserRecord in app/storage.py) instead stores a
single unsalted SHA-256 of the plaintext: creating a user with password
secret1 stores exactly the plain SHA-256 of that password, which fails every
part of the slow-salted-hash criterion. -/
theorem claim1_counterexample :
    (App.MemoryUserStore.empty.create_user "uid-1" "a@x.com" "secret1" "free").toOption.map
        (fun r => r.2.hashed_password)
      = some (HashVal.sha256 "secret1") ∧
    ¬ isSlowSaltedHash (HashVal.sha256 "secret1") := by
  exact ⟨rfl, by decide⟩

/-- C1 (amended): in the Api variant (InMemoryDB.create_user together with the
module-level hash function in src/api/storage.py), the stored credential hash
of every created user is PBKDF2-HMAC-SHA256 of the password with the freshly
generated 16-byte salt, 100000 iterations and 32-byte (256-bit) output, which
satisfies the slow-salted-hash criterion and is never the single fast SHA-256
of the password; the App variant (MemoryUserStore in app/storage.py) instead
stores a single unsalted SHA-256 of the plaintext password. -/
theorem claim1_amended (db : Api.InMemoryDB) (user_id email password : String)
    (tier : PackageTier) (salt : List Nat) (hsalt : salt.length = 16) :
    (db.create_user user_id salt email password tier).2.password_hash
        = HashVal.pbkdf2HmacSha256 password salt 100000 32 ∧
    isSlowSaltedHash (db.create_user user_id salt email password tier).2.password_hash ∧
    (db.create_user user_id salt email password tier).2.password_hash
        ≠ HashVal.sha256 password := by
  refine ⟨rfl, ?_, ?_⟩
  · simp [Api.InMemoryDB.create_user, Api.hash_password, isSlowSaltedHash, hsalt]
  · simp [Api.InMemoryDB.create_user, Api.hash_password]

/-- Witness for the amended C1 at a concrete input. -/
theorem claim1_amended_witness :
    (Api.InMemoryDB.empty.create_user "u1" (List.replicate 16 7) "a@x.com" "secret1"
        PackageTier.free).2.password_hash
      = HashVal.pbkdf2HmacSha256 "secret1" (List.replicate 16 7) 100000 32 ∧
    isSlowSaltedHash
      ((Api.InMemoryDB.empty.create_user "u1" (List.replicate 16 7) "a@x.com" "secret1"
        PackageTier.free).2.password_hash) ∧
    (Api.InMemoryDB.empty.create_user "u1" (List.replicate 16 7) "a@x.com" "secret1"
        PackageTier.free).2.password_hash ≠ HashVal.sha256 "secret1" :=
  claim1_amended Api.InMemoryDB.empty "u1" "a@x.com" "secret1" PackageTier.free
    (List.replicate 16 7) (by decide)

/-- C4: counterexample.  The claim states that the synthetic marker feature
appended by the feature policy falls back to free when the tier is unset or
unknown.  For the unknown tier gold the function appends the marker tier-gold,
not tier-free: the fallback happens only for an unset (empty) tier. -/
theorem claim4_counterexample :
    ((features_for_tier "gold").map (fun f => f.key)).getLast? = some "tier-gold" ∧
    ("tier-gold" : String) ≠ "tier-free" := by
  exact ⟨by decide, by decide⟩

/-- C4 (amended): for every tier string, the feature policy of app/main.py
returns exactly the fixed ordered sequence: the always-enabled base feature
first, then reports and export enabled precisely for pro and enterprise
(reports carrying limit 10 for pro, 50 for enterprise and no limit
otherwise), then analytics enabled precisely for enterprise, and finally the
synthetic marker feature appended last, labeled with the normalized tier name
and falling back to free only when the tier is unset (empty after lowercasing
and trimming); an unknown non-empty tier is used verbatim in the marker. -/
theorem claim4_amended (tier : String) :
    features_for_tier tier =
      [ { key := "basic-search", label := "Basic Search", enabled := true, limit := some 100 }
      , { key := "reports", label := "Reports"
          enabled := decide (pyStrip (pyLower tier) = "pro" ∨ pyStrip (pyLower tier) = "enterprise")
          limit := if pyStrip (pyLower tier) = "pro" then some 10
                   else if pyStrip (pyLower tier) = "enterprise" then some 50 else none }
      , { key := "export", label := "Data Export"
          enabled := decide (pyStrip (pyLower tier) = "pro" ∨ pyStrip (pyLower tier) = "enterprise")
          limit := none }
      , { key := "analytics", label := "Advanced Analytics"
          enabled := decide (pyStrip (pyLower tier) = "enterprise"), limit := none }
      , { key := "tier-" ++ (if pyStrip (pyLower tier) = "" then "free" else pyStrip (pyLower tier))
          label := "Tier: " ++ (if pyStrip (pyLower tier) = "" then "free" else pyStrip (pyLower tier))
          enabled := true, limit := none } ] := by
  by_cases h1 : pyStrip (pyLower tier) = "pro"
  · simp [features_for_tier, h1]
  · by_cases h2 : pyStrip (pyLower tier) = "enterprise"
    · simp [features_for_tier, h1, h2]
    · simp [features_for_tier, h1, h2]

/-- C5: for every tier value, the tailored-content endpoint of app/main.py is
a pure function of the tier (determinism is immediate since the embedding is
a function of the tier alone): the basic item list is always the fixed
catalog, the pro items are present exactly when the normalized tier is pro or
enterprise, and the enterprise items and the analytics bundle are present
exactly when the normalized tier is enterprise; in particular for free all
three optional parts are absent. -/
theorem claim5_content_shape (package_tier : String) :
    (get_content package_tier).data_basic = ["overview", "getting-started", "samples"] ∧
    ((get_content package_tier).data_pro ≠ none ↔
       (pyLower (if package_tier = "" then "free" else package_tier) = "pro" ∨
        pyLower (if package_tier = "" then "free" else package_tier) = "enterprise")) ∧
    ((get_content package_tier).data_enterprise ≠ none ↔
       pyLower (if package_tier = "" then "free" else package_tier) = "enterprise") ∧
    ((get_content package_tier).analytics ≠ none ↔
       pyLower (if package_tier = "" then "free" else package_tier) = "enterprise") := by
  by_cases h1 : pyLower (if package_tier = "" then "free" else package_tier) = "pro"
  · by_cases h2 : pyLower (if package_tier = "" then "free" else package_tier) = "enterprise"
    · rw [h1] at h2
      exact absurd h2 (by decide)
    · simp [get_content, h1, h2]
  · by_cases h2 : pyLower (if package_tier = "" then "free" else package_tier) = "enterprise"
    · simp [get_content, h1, h2]
    · simp [get_content, h1, h2]


/-- C2: round-trip of token issuance and validation in the App variant
(app/security.py).  With the signing secret configured, create_access_token
for a user followed by decode_token of the resulting token at any time
strictly before expiry succeeds and returns claims whose subject equals the
user id and whose tier claim (package_tier) equals the package tier of the
user at the moment of issuance. -/
theorem claim2_roundtrip (env : Env) (user : App.UserRecord) (issue_now validate_now : Int)
    (secret : String) (hsec : env.jwt_secret_key = some secret) (hne : ¬ secret = "")
    (hfresh : validate_now < issue_now + env.access_token_expire_minutes.getD 1440 * 60) :
    ∃ token payload,
      App.create_access_token env user issue_now = Except.ok token ∧
      App.decode_token env token validate_now = Except.ok payload ∧
      payload.sub = some user.id ∧ payload.package_tier = some user.package_tier := by
  have hcfg : App.get_jwt_config env = Except.ok
      { secret := secret, algorithm := env.jwt_algorithm.getD "HS256",
        ttl_minutes := env.access_token_expire_minutes.getD 1440 } := by
    simp [App.get_jwt_config, hsec, hne]
  have hexp : ¬ (issue_now + env.access_token_expire_minutes.getD 1440 * 60 ≤ validate_now) := by
    omega
  refine ⟨TokenString.signed
      { sub := some user.id, email := some user.email,
        package_tier := some user.package_tier, pkg := none, iat := issue_now,
        exp := issue_now + env.access_token_expire_minutes.getD 1440 * 60 }
      secret (env.jwt_algorithm.getD "HS256"),
    { sub := some user.id, email := some user.email,
      package_tier := some user.package_tier, pkg := none, iat := issue_now,
      exp := issue_now + env.access_token_expire_minutes.getD 1440 * 60 },
    ?_, ?_, rfl, rfl⟩
  · simp [App.create_access_token, hcfg, jwt_encode]
  · simp [App.decode_token, hcfg, jwt_decode, hexp]

/-- Witness for C2 at a concrete input. -/
theorem claim2_witness :
    ∃ token payload,
      App.create_access_token
          { jwt_secret_key := some "k", jwt_secret := none, jwt_algorithm := none,
            access_token_expire_minutes := none }
          { id := "id1", email := "a@x.com", hashed_password := HashVal.sha256 "pw",
            package_tier := "free" } 0 = Except.ok token ∧
      App.decode_token
          { jwt_secret_key := some "k", jwt_secret := none, jwt_algorithm := none,
            access_token_expire_minutes := none } token 0 = Except.ok payload ∧
      payload.sub = some "id1" ∧ payload.package_tier = some "free" :=
  claim2_roundtrip
    { jwt_secret_key := some "k", jwt_secret := none, jwt_algorithm := none,
      access_token_expire_minutes := none }
    { id := "id1", email := "a@x.com", hashed_password := HashVal.sha256 "pw",
      package_tier := "free" } 0 0 "k" rfl (by decide) (by decide)

/-- C6: credential verification in the Api variant (InMemoryDB in
src/api/storage.py).  After creating a user, verify_password with the same
email succeeds and returns the created record (whose id is the generated one)
exactly when the supplied password equals the one used at creation, and
returns none on any other password; for an email with no registered user it
also returns none, so the two failure causes produce the identical observable
value.  Hash equality is the ideal collision-free model of PBKDF2. -/
theorem claim6_verify_credentials (db : Api.InMemoryDB) (user_id : String) (salt : List Nat)
    (email password candidate : String) (tier : PackageTier) (hid : ¬ user_id = "") :
    ((candidate = password →
        (db.create_user user_id salt email password tier).1.verify_password email candidate
          = some (db.create_user user_id salt email password tier).2 ∧
        (db.create_user user_id salt email password tier).2.id = user_id) ∧
     (¬ candidate = password →
        (db.create_user user_id salt email password tier).1.verify_password email candidate
          = none)) ∧
    (db.get_user_by_email email = none → db.verify_password email candidate = none) := by
  have hlook : (db.create_user user_id salt email password tier).1.get_user_by_email email
      = some (db.create_user user_id salt email password tier).2 := by
    simp [Api.InMemoryDB.create_user, Api.InMemoryDB.get_user_by_email,
      alookup_ainsert_self, hid]
  refine ⟨⟨?_, ?_⟩, ?_⟩
  · intro hc
    subst hc
    refine ⟨?_, rfl⟩
    simp only [Api.InMemoryDB.verify_password, hlook]
    simp [Api.InMemoryDB.create_user, Api.hash_password]
  · intro hc
    have hne : ¬ ((db.create_user user_id salt email password tier).2.password_hash
        = Api.hash_password candidate
            (db.create_user user_id salt email password tier).2.salt) := by
      simp [Api.InMemoryDB.create_user, Api.hash_password]
      intro h
      exact hc h.symm
    simp [Api.InMemoryDB.verify_password, hlook, hne]
  · intro h
    simp [Api.InMemoryDB.verify_password, h]

/-- Witness for C6 at concrete inputs: the correct password verifies, a wrong
one does not. -/
theorem claim6_witness :
    (Api.InMemoryDB.empty.create_user "u1" (List.replicate 16 0) "a@x.com" "secret1"
        PackageTier.free).1.verify_password "a@x.com" "secret1"
      = some (Api.InMemoryDB.empty.create_user "u1" (List.replicate 16 0) "a@x.com" "secret1"
        PackageTier.free).2 ∧
    (Api.InMemoryDB.empty.create_user "u1" (List.replicate 16 0) "a@x.com" "secret1"
        PackageTier.free).1.verify_password "a@x.com" "wrong" = none := by
  have h1 := claim6_verify_credentials Api.InMemoryDB.empty "u1" (List.replicate 16 0)
    "a@x.com" "secret1" "secret1" PackageTier.free (by decide)
  have h2 := claim6_verify_credentials Api.InMemoryDB.empty "u1" (List.replicate 16 0)
    "a@x.com" "secret1" "wrong" PackageTier.free (by decide)
  exact ⟨(h1.1.1 rfl).1, h2.1.2 (by decide)⟩

/-- C7: counterexample.  The claim states that for every store state,
createUser fails with DuplicateEmail exactly when a record with the same
normalized email already exists, so that email stays a unique key.  The Api
variant store operation InMemoryDB.create_user performs no duplicate check at
all (the signup router checks separately before calling it): calling it twice
with the same email succeeds both times and leaves two distinct records with
the same email in the users table, breaking uniqueness. -/
theorem claim7_counterexample :
    ((((Api.InMemoryDB.empty.create_user "u1" (List.replicate 16 1) "a@x.com" "pw1"
          PackageTier.free).1.create_user "u2" (List.replicate 16 2) "a@x.com" "pw2"
          PackageTier.free).1.get_user_by_id "u1").map (fun r => r.email)
        = some "a@x.com") ∧
    ((((Api.InMemoryDB.empty.create_user "u1" (List.replicate 16 1) "a@x.com" "pw1"
          PackageTier.free).1.create_user "u2" (List.replicate 16 2) "a@x.com" "pw2"
          PackageTier.free).1.get_user_by_id "u2").map (fun r => r.email)
        = some "a@x.com") ∧
    ("u1" : String) ≠ "u2" := by
  exact ⟨by decide, by decide, by decide⟩

/-- C7 (amended): in the App variant (MemoryUserStore.create_user in
app/storage.py) the claim holds: creation fails with the DuplicateEmail error
exactly when a record is already stored under the lowercased, trimmed email,
the failing call returns no store so nothing is created or replaced, and a
successful call stores the new record under that unique normalized key.  The
Api variant store operation InMemoryDB.create_user itself performs no
duplicate check (the signup route checks before calling it) and a direct
duplicate call creates a second record with the same email. -/
theorem claim7_amended (s : App.MemoryUserStore) (id email password tier : String) :
    ((∃ msg, s.create_user id email password tier = Except.error msg) ↔
        (alookup s.by_email (pyStrip (pyLower email))).isSome) ∧
    (∀ s2 u, s.create_user id email password tier = Except.ok (s2, u) →
        alookup s2.by_email (pyStrip (pyLower email)) = some u) := by
  by_cases hs : (alookup s.by_email (pyStrip (pyLower email))).isSome
  · constructor
    · exact ⟨fun _ => hs, fun _ => ⟨"Email already registered",
        by simp [App.MemoryUserStore.create_user, hs]⟩⟩
    · intro s2 u h
      simp [App.MemoryUserStore.create_user, hs] at h
  · constructor
    · constructor
      · rintro ⟨msg, hmsg⟩
        simp [App.MemoryUserStore.create_user, hs] at hmsg
      · intro hsome
        exact absurd hsome hs
    · intro s2 u h
      simp [App.MemoryUserStore.create_user, hs] at h
      obtain ⟨h1, h2⟩ := h
      subst h1
      subst h2
      exact alookup_ainsert_self _ _ _

/-- Witness for the amended C7 at a concrete input: on the empty store the
duplicate failure does not occur. -/
theorem claim7_amended_witness :
    (∃ msg, App.MemoryUserStore.empty.create_user "u1" "a@x.com" "pw1" "free"
        = Except.error msg) ↔
      (alookup App.MemoryUserStore.empty.by_email (pyStrip (pyLower "a@x.com"))).isSome :=
  (claim7_amended App.MemoryUserStore.empty "u1" "a@x.com" "pw1" "free").1

/-- C8: counterexample.  The claim states that the signing secret is required
and that without it every token operation fails with ConfigurationError, and
that the time-to-live defaults to 1440 minutes.  In the Api variant
(src/api/auth.py) an unset JWT_SECRET falls back to the built-in development
secret, so issuing and validating a token both succeed with no configuration
error, and the time-to-live defaults to 60 minutes, not 1440. -/
theorem claim8_counterexample :
    Api.JWT_SECRET
        { jwt_secret_key := none, jwt_secret := none, jwt_algorithm := none,
          access_token_expire_minutes := none }
      = "change_me_local_dev_secret" ∧
    Api.ACCESS_TOKEN_EXPIRE_MINUTES
        { jwt_secret_key := none, jwt_secret := none, jwt_algorithm := none,
          access_token_expire_minutes := none }
      = 60 ∧
    ((60 : Int) ≠ 1440) ∧
    Api.decode_token
        { jwt_secret_key := none, jwt_secret := none, jwt_algorithm := none,
          access_token_expire_minutes := none }
        (Api.create_access_token
          { jwt_secret_key := none, jwt_secret := none, jwt_algorithm := none,
            access_token_expire_minutes := none } "u1" (some "free") 0) 0
      = some { sub := some "u1", email := none, package_tier := none, pkg := some "free",
               iat := 0, exp := 3600 } := by
  exact ⟨rfl, rfl, by decide, by decide⟩

/-- C8 (amended): in the App variant (get_jwt_config in app/security.py) the
signing secret is genuinely required: when JWT_SECRET_KEY is unset or empty,
token issuance and token validation both fail with the configuration error
(no fallback secret exists there), and when it is set the time-to-live
defaults to 1440 minutes; in the Api variant (src/api/auth.py) an unset
JWT_SECRET instead falls back to a built-in development secret and the
time-to-live defaults to 60 minutes. -/
theorem claim8_amended (env : Env) (user : App.UserRecord) (token : TokenString) (now : Int) :
    ((env.jwt_secret_key = none ∨ env.jwt_secret_key = some "") →
       App.create_access_token env user now
           = Except.error "JWT_SECRET_KEY environment variable is required but not set." ∧
       App.decode_token env token now
           = Except.error "JWT_SECRET_KEY environment variable is required but not set.") ∧
    (∀ s, env.jwt_secret_key = some s → ¬ s = "" →
       App.get_jwt_config env = Except.ok
         { secret := s, algorithm := env.jwt_algorithm.getD "HS256",
           ttl_minutes := env.access_token_expire_minutes.getD 1440 }) ∧
    Api.ACCESS_TOKEN_EXPIRE_MINUTES env = env.access_token_expire_minutes.getD 60 := by
  refine ⟨?_, ?_, rfl⟩
  · rintro (h | h) <;>
      simp [App.create_access_token, App.decode_token, App.get_jwt_config, h]
  · intro s hs hne
    simp [App.get_jwt_config, hs, hne]

/-- Witness for the amended C8 at a concrete input: with no secret configured
both App-variant token operations fail with the configuration error. -/
theorem claim8_amended_witness :
    App.create_access_token
        { jwt_secret_key := none, jwt_secret := none, jwt_algorithm := none,
          access_token_expire_minutes := none }
        { id := "i", email := "e@x.com", hashed_password := HashVal.sha256 "p",
          package_tier := "free" } 0
      = Except.error "JWT_SECRET_KEY environment variable is required but not set." ∧
    App.decode_token
        { jwt_secret_key := none, jwt_secret := none, jwt_algorithm := none,
          access_token_expire_minutes := none } (TokenString.malformed "x") 0
      = Except.error "JWT_SECRET_KEY environment variable is required but not set." :=
  (claim8_amended
    { jwt_secret_key := none, jwt_secret := none, jwt_algorithm := none,
      access_token_expire_minutes := none }
    { id := "i", email := "e@x.com", hashed_password := HashVal.sha256 "p",
      package_tier := "free" }
    (TokenString.malformed "x") 0).1 (Or.inl rfl)

/-! Infrastructure for the session-resolution claims. -/

theorem PackageTier.ofString_value (t : PackageTier) : PackageTier.ofString t.value = some t := by
  cases t <;> rfl

theorem alookup_eq_none_of_keys_ne {α : Type} (l : List (String × α)) (k : String)
    (h : ∀ p ∈ l, ¬ p.1 = k) : alookup l k = none := by
  rw [alookup, Option.map_eq_none', List.find?_eq_none]
  intro p hp
  simpa using h p hp

theorem alookup_some_mem {α : Type} {l : List (String × α)} {k : String} {v : α}
    (h : alookup l k = some v) : (k, v) ∈ l := by
  rw [alookup, Option.map_eq_some'] at h
  obtain ⟨p, hp, hv⟩ := h
  have hmem := List.mem_of_find?_eq_some hp
  have hkey : p.1 = k := by simpa using List.find?_some hp
  obtain ⟨p1, p2⟩ := p
  simp only at hkey hv
  subst hkey
  subst hv
  exact hmem

/-- Well-formedness of an Api store state, as maintained by the storage
operations: every stored user id is nonempty (str(uuid.uuid4()) is never
empty) and every stored tier string is one of the three enumeration values
(create_user and set_package only ever store PackageTier member values). -/
def Api.InMemoryDB.wellFormed (db : Api.InMemoryDB) : Prop :=
  ∀ p ∈ db.users, ¬ p.1 = "" ∧ (PackageTier.ofString p.2.package_tier).isSome

/-- The token string is structurally malformed (claim-structure failure). -/
def tokenMalformed : TokenString → Prop
  | TokenString.malformed _ => True
  | TokenString.signed _ _ _ => False

/-- The signature of the token does not verify against the configured secret
and algorithm of the Api variant. -/
def tokenSignatureInvalid (env : Env) : TokenString → Prop
  | TokenString.malformed _ => False
  | TokenString.signed _ s a => ¬ (s = Api.JWT_SECRET env ∧ a = Api.JWT_ALGORITHM env)

/-- The expiry of the token has passed: exp at or before now, with no
clock-skew leeway. -/
def tokenExpired (now : Int) : TokenString → Prop
  | TokenString.malformed _ => False
  | TokenString.signed p _ _ => p.exp ≤ now

/-- The subject claim is absent from the token payload. -/
def tokenSubjectMissing : TokenString → Prop
  | TokenString.malformed _ => False
  | TokenString.signed p _ _ => p.sub = none

/-- No user exists in the store under the subject id carried by the token. -/
def tokenSubjectUnknown (db : Api.InMemoryDB) : TokenString → Prop
  | TokenString.malformed _ => False
  | TokenString.signed p _ _ => ∀ uid, p.sub = some uid → db.get_user_by_id uid = none

/-- C3: resolution of a bearer token in the Api variant (get_current_user in
src/api/dependencies.py) on a well-formed store fails — with the single
undifferentiated Unauthorized outcome, modelled as the one value none — if
and only if the signature does not verify, the token is structurally
malformed, the expiry has passed (exp at or before now, no leeway), the
subject claim is absent, or no user exists under the subject id.  All five
causes produce the identical observable value, so they are externally
indistinguishable. -/
theorem claim3_unauthorized_iff (env : Env) (db : Api.InMemoryDB) (token : TokenString)
    (now : Int) (hwf : db.wellFormed) :
    Api.get_current_user env token db now = none ↔
      tokenMalformed token ∨ tokenSignatureInvalid env token ∨ tokenExpired now token ∨
      tokenSubjectMissing token ∨ tokenSubjectUnknown db token := by
  cases token with
  | malformed raw =>
      simp [Api.get_current_user, Api.decode_token, jwt_decode, tokenMalformed]
  | signed payload s a =>
      by_cases hsig : s = Api.JWT_SECRET env ∧ a = Api.JWT_ALGORITHM env
      · by_cases hexp : payload.exp ≤ now
        · simp [Api.get_current_user, Api.decode_token, jwt_decode, hsig, hexp,
            tokenMalformed, tokenSignatureInvalid, tokenExpired]
        · cases hsub : payload.sub with
          | none =>
              simp [Api.get_current_user, Api.decode_token, jwt_decode, hsig, hexp,
                tokenMalformed, tokenSignatureInvalid, tokenExpired, tokenSubjectMissing,
                hsub]
          | some uid =>
              by_cases huid : uid = ""
              · have hlook : db.get_user_by_id "" = none := by
                  rw [Api.InMemoryDB.get_user_by_id]
                  exact alookup_eq_none_of_keys_ne db.users ""
                    (fun p hp => (hwf p hp).1)
                subst huid
                simp [Api.get_current_user, Api.decode_token, jwt_decode, hsig, hexp,
                  tokenMalformed, tokenSignatureInvalid, tokenExpired, tokenSubjectMissing,
                  tokenSubjectUnknown, hsub, hlook]
              · cases hrec : db.get_user_by_id uid with
                | none =>
                    simp [Api.get_current_user, Api.decode_token, jwt_decode, hsig, hexp,
                      tokenMalformed, tokenSignatureInvalid, tokenExpired,
                      tokenSubjectMissing, tokenSubjectUnknown, hsub, huid, hrec]
                | some record =>
                    have htier : (PackageTier.ofString record.package_tier).isSome := by
                      have hmem := alookup_some_mem
                        (by rw [Api.InMemoryDB.get_user_by_id] at hrec; exact hrec)
                      exact (hwf (uid, record) hmem).2
                    obtain ⟨t, ht⟩ := Option.isSome_iff_exists.mp htier
                    simp [Api.get_current_user, Api.decode_token, jwt_decode, hsig, hexp,
                      tokenMalformed, tokenSignatureInvalid, tokenExpired,
                      tokenSubjectMissing, tokenSubjectUnknown, hsub, huid, hrec, ht]
      · simp [Api.get_current_user, Api.decode_token, jwt_decode, hsig,
          tokenMalformed, tokenSignatureInvalid]

/-- Witness for C3 at a concrete input: a malformed token on the empty store
resolves to the uniform failure, and the first listed cause holds. -/
theorem claim3_witness :
    (Api.get_current_user
        { jwt_secret_key := none, jwt_secret := none, jwt_algorithm := none,
          access_token_expire_minutes := none }
        (TokenString.malformed "not-a-jwt") Api.InMemoryDB.empty 0 = none ↔
      tokenMalformed (TokenString.malformed "not-a-jwt") ∨
      tokenSignatureInvalid
        { jwt_secret_key := none, jwt_secret := none, jwt_algorithm := none,
          access_token_expire_minutes := none }
        (TokenString.malformed "not-a-jwt") ∨
      tokenExpired 0 (TokenString.malformed "not-a-jwt") ∨
      tokenSubjectMissing (TokenString.malformed "not-a-jwt") ∨
      tokenSubjectUnknown Api.InMemoryDB.empty (TokenString.malformed "not-a-jwt")) :=
  claim3_unauthorized_iff
    { jwt_secret_key := none, jwt_secret := none, jwt_algorithm := none,
      access_token_expire_minutes := none }
    Api.InMemoryDB.empty (TokenString.malformed "not-a-jwt") 0
    (fun p hp => absurd hp (List.not_mem_nil p))

/-- C9: resolution reads the tier fresh from the store (Api variant,
get_current_user in src/api/dependencies.py).  For a correctly signed,
unexpired token whose subject is a user present in the store, resolution
returns the record currently stored under that id: after set_package changes
the tier, the updated tier is returned, whatever tier claim (pkg) the token
payload carries — the payload here is arbitrary apart from its subject and
expiry, so the embedded tier claim is ignored. -/
theorem claim9_fresh_tier (env : Env) (db : Api.InMemoryDB) (payload : JwtPayload)
    (now : Int) (uid : String) (record : Api.UserRecord) (tier : PackageTier)
    (hsub : payload.sub = some uid) (huid : ¬ uid = "")
    (hexp : now < payload.exp)
    (hrec : db.get_user_by_id uid = some record) :
    Api.get_current_user env
        (TokenString.signed payload (Api.JWT_SECRET env) (Api.JWT_ALGORITHM env))
        (db.set_package uid tier).1 now
      = some { id := record.id, email := record.email, package_tier := tier } := by
  have hdec : Api.decode_token env
      (TokenString.signed payload (Api.JWT_SECRET env) (Api.JWT_ALGORITHM env)) now
      = some payload := by
    have hx : ¬ payload.exp ≤ now := by omega
    simp [Api.decode_token, jwt_decode, hx]
  rw [Api.InMemoryDB.get_user_by_id] at hrec
  have hset : ((db.set_package uid tier).1).get_user_by_id uid
      = some { record with package_tier := tier.value } := by
    simp only [Api.InMemoryDB.set_package, hrec, Api.InMemoryDB.get_user_by_id]
    exact alookup_ainsert_self _ _ _
  simp [Api.get_current_user, hdec, hsub, huid, hset, PackageTier.ofString_value]

/-- Witness for C9 at a concrete input: a token issued when the user was on
the free tier (its pkg claim says free) resolves to the pro tier after
set_package. -/
theorem claim9_witness :
    Api.get_current_user
        { jwt_secret_key := none, jwt_secret := none, jwt_algorithm := none,
          access_token_expire_minutes := none }
        (TokenString.signed
          { sub := some "u1", email := none, package_tier := none, pkg := some "free",
            iat := 0, exp := 3600 }
          (Api.JWT_SECRET
            { jwt_secret_key := none, jwt_secret := none, jwt_algorithm := none,
              access_token_expire_minutes := none })
          (Api.JWT_ALGORITHM
            { jwt_secret_key := none, jwt_secret := none, jwt_algorithm := none,
              access_token_expire_minutes := none }))
        (((Api.InMemoryDB.empty.create_user "u1" (List.replicate 16 3) "a@x.com" "pw"
            PackageTier.free).1).set_package "u1" PackageTier.pro).1 0
      = some { id := "u1", email := "a@x.com", package_tier := PackageTier.pro } := by
  have h := claim9_fresh_tier
    { jwt_secret_key := none, jwt_secret := none, jwt_algorithm := none,
      access_token_expire_minutes := none }
    (Api.InMemoryDB.empty.create_user "u1" (List.replicate 16 3) "a@x.com" "pw"
      PackageTier.free).1
    { sub := some "u1", email := none, package_tier := none, pkg := some "free",
      iat := 0, exp := 3600 }
    0 "u1"
    { id := "u1", email := pyLower "a@x.com", salt := List.replicate 16 3,
      password_hash := Api.hash_password "pw" (List.replicate 16 3),
      package_tier := PackageTier.free.value }
    PackageTier.pro rfl (by decide) (by decide) (by decide)
  exact h
